import Mathlib

/-!
Verification model of the MusicGenRNN browser frontend.

The repository ships three UI variants of the same page script:
  - src/script.js            : card grid plus a bottom-right (corner) popup player;
  - src/unnamed/part_000     : card grid plus a full-screen popup player with a
                               click-to-close overlay;
  - src/frontend/script.js   : card grid plus a shared inline panel; selecting a
                               card installs a generate button in the panel.

Each variant is embedded as a state type together with pure state-transition
functions, one per DOM event handler or async function.  An async function is
split at its await points: the synchronous head runs at click time and the tail
runs when the network outcome arrives; the network outcome itself is an explicit
argument.  Object URLs created by URL.createObjectURL are modelled by a counter
and a list of currently allocated (never revoked) handles.
-/

namespace MusicGenRNN

/-- Backend base address used by the two popup variants (src/script.js and
src/unnamed/part_000). -/
def API_BASE : String := "https://musicgen-rnn.onrender.com"

/-- A tune descriptor as served by the backend list endpoint: id, title and an
optional original-audio URL. -/
structure Tune where
  id : String
  title : String
  orig_audio_url : Option String
  deriving DecidableEq, Repr

/-- JS truthiness of the optional orig_audio_url field: a missing field and the
empty string are both falsy. -/
def truthy : Option String → Bool
  | none => false
  | some s => s != ""

/-- A generate button element: its disabled flag and its visible label. -/
structure Button where
  disabled : Bool
  label : String
  deriving DecidableEq, Repr

/-- Status text set by all three variants right before the generate fetch. -/
def sendingStatus : String :=
  "Sending ABC to model and synthesizing audio (this may take a few seconds)..."

/-- Outcome of awaiting the generate fetch: a successful binary payload, a
non-success status whose body text was read, or a transport failure whose
message is the thrown error message. -/
inductive GenOutcome where
  | success (blob : String)
  | serverError (body : String)
  | networkError (msg : String)
  deriving DecidableEq, Repr

/-- True exactly on the two failing generate outcomes. -/
def GenOutcome.isFailure : GenOutcome → Bool
  | .success _ => false
  | .serverError _ => true
  | .networkError _ => true

/-- An HTTP response to the list fetch: its ok flag, its body text, and the
parse of the body as a JSON tune array when it is one. -/
structure ListResponse where
  ok : Bool
  bodyText : String
  bodyJson : Option (List Tune)
  deriving DecidableEq, Repr

/-- Outcome of awaiting the list fetch: a response, or a transport failure. -/
inductive ListFetch where
  | response (r : ListResponse)
  | networkError (msg : String)
  deriving DecidableEq, Repr

/-- Message of the exception raised by res.json() when the body text does not
parse as JSON. -/
def jsonErrMsg (bodyText : String) : String :=
  "Unexpected token in JSON: " ++ bodyText

/-- Content of the popup container in the two popup variants: empty, or a
player element whose src is an allocated object URL handle. -/
inductive PopupContent where
  | empty
  | player (url : Nat)
  deriving DecidableEq, Repr

namespace CardUI

/-!
The card markup produced by renderGrid is textually identical in src/script.js
and src/unnamed/part_000; it is modelled once here and used by both variants.
-/

/-- The original-audio area of a card: an audio control with a source URL, or
the not-available note. -/
inductive AudioArea where
  | control (src : String)
  | notAvailable
  deriving DecidableEq, Repr

/-- Default label of the per-card generate button in both popup variants. -/
def genBtnLabel : String := "Generate AI Continuation"

/-- The button as rendered and as reset by the finally block. -/
def idleBtn : Button := { disabled := false, label := genBtnLabel }

/-- The button as set by the synchronous head of generateTunePopup. -/
def generatingBtn : Button := { disabled := true, label := "Generating…" }

/-- One rendered card: title line, id line, original-audio area and the
generate button. -/
structure Card where
  title : String
  tuneId : String
  audio : AudioArea
  btn : Button
  deriving DecidableEq, Repr

/-- The audioHtml choice in renderGrid: an audio control with src
API_BASE plus orig_audio_url when that field is truthy, else the
not-available note. -/
def origAudio (t : Tune) : AudioArea :=
  if truthy t.orig_audio_url then
    .control (API_BASE ++ t.orig_audio_url.getD "")
  else
    .notAvailable

/-- The card built for one tune by the forEach body of renderGrid. -/
def mkCard (t : Tune) : Card :=
  { title := t.title, tuneId := t.id, audio := origAudio t, btn := idleBtn }

/-- Replace the button of the card at index i, leaving every other card
unchanged (the handler closes over one specific button element). -/
def updateBtn : List Card → Nat → Button → List Card
  | [], _, _ => []
  | c :: cs, 0, b => { c with btn := b } :: cs
  | c :: cs, n + 1, b => c :: updateBtn cs n b

end CardUI

namespace Corner

/-!
Model of src/script.js: the variant with the fixed bottom-right popup player.
-/

/-- DOM and resource state of the corner-popup variant: status line, card grid,
popup visibility and content, the allocated (never revoked) object URLs, the
next fresh URL handle, and the indices of cards with a generate request in
flight. -/
structure St where
  statusText : String
  grid : List CardUI.Card
  popupVisible : Bool
  popupContent : PopupContent
  allocatedUrls : List Nat
  nextUrl : Nat
  inFlight : List Nat
  deriving DecidableEq, Repr

/-- setStatus writes the status element text. -/
def setStatus (s : St) (text : String) : St :=
  { s with statusText := text }

/-- renderGrid clears the grid element and appends one card per tune, in list
order. -/
def renderGrid (s : St) (tunes : List Tune) : St :=
  { s with grid := tunes.map CardUI.mkCard }

/-- The try block of fetchTuneList: throws the body text on a non-ok status,
throws the JSON parse failure when the body is not a tune array, and otherwise
renders the grid and clears the status. -/
def fetchTuneListTry (s : St) (f : ListFetch) : Except String St :=
  match f with
  | .networkError m => .error m
  | .response r =>
    if r.ok then
      match r.bodyJson with
      | none => .error (jsonErrMsg r.bodyText)
      | some tunes => .ok (setStatus (renderGrid s tunes) "")
    else
      .error r.bodyText

/-- fetchTuneList: sets the loading status, runs the try block, and on any
thrown error the catch converts it into a status message.  The function is
total: no failure escapes it, and it issues exactly one fetch. -/
def fetchTuneList (s : St) (f : ListFetch) : St :=
  let s0 := setStatus s "Loading tunes..."
  match fetchTuneListTry s0 f with
  | .ok s1 => s1
  | .error m => setStatus s0 ("Failed to load tunes: " ++ m)

/-- Synchronous head of generateTunePopup for the card at index i: disable the
clicked button, set its label to the working indicator, set the sending status,
and record the request as in flight. -/
def generateBegin (s : St) (i : Nat) : St :=
  { s with
      grid := CardUI.updateBtn s.grid i CardUI.generatingBtn,
      statusText := sendingStatus,
      inFlight := i :: s.inFlight }

/-- The try block tail of generateTunePopup after the response arrives: on a
non-ok status it throws the server-error message, on transport failure the
fetch itself threw; on success it allocates an object URL for the blob, fills
the popup with the player and close button, shows the popup and sets the ready
status.  The thrown error paths run before any popup or URL update. -/
def generateTry (s : St) (o : GenOutcome) : Except String St :=
  match o with
  | .networkError m => .error m
  | .serverError body => .error ("Server error: " ++ body)
  | .success _blob =>
    .ok { s with
            popupContent := .player s.nextUrl,
            popupVisible := true,
            allocatedUrls := s.allocatedUrls ++ [s.nextUrl],
            nextUrl := s.nextUrl + 1,
            statusText := "Generated audio ready." }

/-- Tail of generateTunePopup: run the try tail, convert a thrown error into
the error status message (catch), and in the finally block re-enable the
clicked button with its original label; the request leaves the in-flight set. -/
def generateFinish (s : St) (i : Nat) (o : GenOutcome) : St :=
  let s1 :=
    match generateTry s o with
    | .ok s2 => s2
    | .error m => setStatus s ("Error generating audio: " ++ m)
  { s1 with
      grid := CardUI.updateBtn s1.grid i CardUI.idleBtn,
      inFlight := s1.inFlight.erase i }

/-- A full uninterleaved run of generateTunePopup on the card at index i with
network outcome o. -/
def generateTunePopup (s : St) (i : Nat) (o : GenOutcome) : St :=
  generateFinish (generateBegin s i) i o

/-- The close-popup click handler: hide the popup and clear its content.  The
object URL of the player is not revoked. -/
def closePopup (s : St) : St :=
  { s with popupVisible := false, popupContent := .empty }

/-- Page state after load once the initial list fetch has rendered the grid. -/
def initSt (tunes : List Tune) : St :=
  { statusText := "",
    grid := tunes.map CardUI.mkCard,
    popupVisible := false,
    popupContent := .empty,
    allocatedUrls := [],
    nextUrl := 0,
    inFlight := [] }

/-- User and network events after load: clicking the generate button of card
i, a response arriving for the in-flight request of card i, and clicking the
popup close button. -/
inductive Ev where
  | clickGen (i : Nat)
  | respond (i : Nat) (o : GenOutcome)
  | closeClick
  deriving DecidableEq, Repr

/-- One event step.  A click on a disabled button dispatches no handler, so it
leaves the state unchanged; a response is consumed only if the request is in
flight. -/
def step (s : St) : Ev → St
  | .clickGen i =>
    match (s.grid.get? i).map CardUI.Card.btn with
    | some b => if b.disabled then s else generateBegin s i
    | none => s
  | .respond i o => if i ∈ s.inFlight then generateFinish s i o else s
  | .closeClick => if s.popupVisible then closePopup s else s

/-- Run a list of events from a state. -/
def run (s : St) : List Ev → St
  | [] => s
  | e :: es => run (step s e) es

/-- Invariant tying the in-flight requests to the disabled buttons: the
in-flight list has no duplicates, and every in-flight index names an existing
card whose button is disabled. -/
def Inv (s : St) : Prop :=
  s.inFlight.Nodup ∧
    ∀ i ∈ s.inFlight, ∃ c, s.grid.get? i = some c ∧ c.btn.disabled = true

end Corner

namespace Modal

/-!
Model of src/unnamed/part_000: the variant with the full-screen popup player
and a click-to-close overlay.  The grid and card markup are identical to
src/script.js and reuse the CardUI model.
-/

/-- DOM and resource state of the full-screen popup variant.  Compared to the
corner variant it adds the overlay visibility and whether the popup audio
element is playing. -/
structure St where
  statusText : String
  grid : List CardUI.Card
  popupVisible : Bool
  overlayVisible : Bool
  popupContent : PopupContent
  audioPlaying : Bool
  allocatedUrls : List Nat
  nextUrl : Nat
  inFlight : List Nat
  deriving DecidableEq, Repr

/-- setStatus writes the status element text. -/
def setStatus (s : St) (text : String) : St :=
  { s with statusText := text }

/-- renderGrid clears the grid element and appends one card per tune, in list
order. -/
def renderGrid (s : St) (tunes : List Tune) : St :=
  { s with grid := tunes.map CardUI.mkCard }

/-- The try block of fetchTuneList, identical to the corner variant. -/
def fetchTuneListTry (s : St) (f : ListFetch) : Except String St :=
  match f with
  | .networkError m => .error m
  | .response r =>
    if r.ok then
      match r.bodyJson with
      | none => .error (jsonErrMsg r.bodyText)
      | some tunes => .ok (setStatus (renderGrid s tunes) "")
    else
      .error r.bodyText

/-- fetchTuneList with its catch, identical to the corner variant. -/
def fetchTuneList (s : St) (f : ListFetch) : St :=
  let s0 := setStatus s "Loading tunes..."
  match fetchTuneListTry s0 f with
  | .ok s1 => s1
  | .error m => setStatus s0 ("Failed to load tunes: " ++ m)

/-- Synchronous head of generateTunePopup, identical to the corner variant. -/
def generateBegin (s : St) (i : Nat) : St :=
  { s with
      grid := CardUI.updateBtn s.grid i CardUI.generatingBtn,
      statusText := sendingStatus,
      inFlight := i :: s.inFlight }

/-- The try block tail of generateTunePopup: on success it allocates an object
URL, shows the overlay, shows the popup (display flex), fills it with the
autoplaying player and close button, and sets the ready status.  Both error
paths throw before any overlay, popup or URL update. -/
def generateTry (s : St) (o : GenOutcome) : Except String St :=
  match o with
  | .networkError m => .error m
  | .serverError body => .error ("Server error: " ++ body)
  | .success _blob =>
    .ok { s with
            overlayVisible := true,
            popupVisible := true,
            popupContent := .player s.nextUrl,
            audioPlaying := true,
            allocatedUrls := s.allocatedUrls ++ [s.nextUrl],
            nextUrl := s.nextUrl + 1,
            statusText := "Generated audio ready." }

/-- Tail of generateTunePopup with catch and finally, as in the corner
variant. -/
def generateFinish (s : St) (i : Nat) (o : GenOutcome) : St :=
  let s1 :=
    match generateTry s o with
    | .ok s2 => s2
    | .error m => setStatus s ("Error generating audio: " ++ m)
  { s1 with
      grid := CardUI.updateBtn s1.grid i CardUI.idleBtn,
      inFlight := s1.inFlight.erase i }

/-- A full uninterleaved run of generateTunePopup on the card at index i. -/
def generateTunePopup (s : St) (i : Nat) (o : GenOutcome) : St :=
  generateFinish (generateBegin s i) i o

/-- Body shared by the close-button click handler and the overlay click
handler: pause the audio element, hide the popup and the overlay, clear the
popup content.  The object URL of the player is not revoked. -/
def closePopup (s : St) : St :=
  { s with
      audioPlaying := false,
      popupVisible := false,
      overlayVisible := false,
      popupContent := .empty }

/-- Page state after load once the initial list fetch has rendered the grid. -/
def initSt (tunes : List Tune) : St :=
  { statusText := "",
    grid := tunes.map CardUI.mkCard,
    popupVisible := false,
    overlayVisible := false,
    popupContent := .empty,
    audioPlaying := false,
    allocatedUrls := [],
    nextUrl := 0,
    inFlight := [] }

/-- User and network events after load, as in the corner variant, with the
overlay click added. -/
inductive Ev where
  | clickGen (i : Nat)
  | respond (i : Nat) (o : GenOutcome)
  | closeClick
  | overlayClick
  deriving DecidableEq, Repr

/-- One event step.  The overlay click handler exists only while a result is
shown (it is installed on success, and the overlay is visible only then). -/
def step (s : St) : Ev → St
  | .clickGen i =>
    match (s.grid.get? i).map CardUI.Card.btn with
    | some b => if b.disabled then s else generateBegin s i
    | none => s
  | .respond i o => if i ∈ s.inFlight then generateFinish s i o else s
  | .closeClick => if s.popupVisible then closePopup s else s
  | .overlayClick => if s.overlayVisible then closePopup s else s

/-- Run a list of events from a state. -/
def run (s : St) : List Ev → St
  | [] => s
  | e :: es => run (step s e) es

/-- Invariant tying the in-flight requests to the disabled buttons, as in the
corner variant. -/
def Inv (s : St) : Prop :=
  s.inFlight.Nodup ∧
    ∀ i ∈ s.inFlight, ∃ c, s.grid.get? i = some c ∧ c.btn.disabled = true

end Modal

namespace Inline

/-!
Model of src/frontend/script.js: the variant with a shared inline original
player panel and generated player panel.  Cards show only title and id;
clicking a card selects the tune, fills the original panel, and installs a
fresh generate button in the generated panel.
-/

/-- A rendered card in this variant: title line and id line only. -/
structure InCard where
  title : String
  tuneId : String
  deriving DecidableEq, Repr

/-- Content of the shared original-audio panel. -/
inductive OrigPanel where
  | initial
  | control (src : String)
  | notAvailable
  deriving DecidableEq, Repr

/-- Content of the shared generated-audio panel: untouched, the prompt note,
a generate button for a tune id, an autoplaying player on an object URL, or
the generation-failed note. -/
inductive GenPanel where
  | initial
  | prompt
  | genButton (tuneId : String) (b : Button)
  | audio (url : Nat)
  | failedNote
  deriving DecidableEq, Repr

/-- Default label of the generate button in this variant. -/
def genLabel : String := "Generate continuation"

/-- DOM and resource state of the inline variant, with the multiset of tune
ids that have a generate request in flight. -/
structure St where
  statusText : String
  grid : List InCard
  origPanel : OrigPanel
  genPanel : GenPanel
  allocatedUrls : List Nat
  nextUrl : Nat
  inFlight : List String
  deriving DecidableEq, Repr

/-- setStatus writes the status element text. -/
def setStatus (s : St) (text : String) : St :=
  { s with statusText := text }

/-- The card built for one tune by the forEach body of renderGrid. -/
def mkCard (t : Tune) : InCard :=
  { title := t.title, tuneId := t.id }

/-- renderGrid clears the grid element and appends one card per tune, in list
order. -/
def renderGrid (s : St) (tunes : List Tune) : St :=
  { s with grid := tunes.map mkCard }

/-- The try block of fetchTuneList in this variant: there is no status check;
the body is parsed as JSON and rendered, and only a parse failure (or the
fetch itself) throws. -/
def fetchTuneListTry (s : St) (f : ListFetch) : Except String St :=
  match f with
  | .networkError m => .error m
  | .response r =>
    match r.bodyJson with
    | none => .error (jsonErrMsg r.bodyText)
    | some tunes => .ok (setStatus (renderGrid s tunes) "")

/-- fetchTuneList with its catch: any thrown error becomes a status message. -/
def fetchTuneList (s : St) (f : ListFetch) : St :=
  let s0 := setStatus s "Loading tunes..."
  match fetchTuneListTry s0 f with
  | .ok s1 => s1
  | .error m => setStatus s0 ("Failed to load tunes: " ++ m)

/-- showGenerateButton: clear the status, clear the generated panel and append
a fresh enabled button wired to the given tune id. -/
def showGenerateButton (s : St) (tuneId : String) : St :=
  { s with
      statusText := "",
      genPanel := .genButton tuneId { disabled := false, label := genLabel } }

/-- onSelectTune: fill the original panel from the descriptor (truthiness
check on orig_audio_url, used directly as the source), reset the generated
panel to the prompt, clear the status, then install the generate button. -/
def onSelectTune (s : St) (t : Tune) : St :=
  let s1 :=
    { s with
        origPanel :=
          if truthy t.orig_audio_url then
            .control (t.orig_audio_url.getD "")
          else
            .notAvailable,
        genPanel := .prompt,
        statusText := "" }
  showGenerateButton s1 t.id

/-- Synchronous head of generateTune: disable the clicked button (still in the
panel at click time), set its label to the working indicator, set the sending
status, and record the request as in flight. -/
def generateBegin (s : St) (tuneId : String) : St :=
  { s with
      genPanel :=
        match s.genPanel with
        | .genButton tid _ =>
          if tid = tuneId then
            .genButton tid { disabled := true, label := "Generating…" }
          else
            s.genPanel
        | p => p,
      statusText := sendingStatus,
      inFlight := tuneId :: s.inFlight }

/-- The try block tail of generateTune after the response: the error paths
throw before any panel or URL update; on success it allocates an object URL
and replaces the generated panel with the autoplaying player. -/
def generateTry (s : St) (o : GenOutcome) : Except String St :=
  match o with
  | .networkError m => .error m
  | .serverError body => .error ("Server error: " ++ body)
  | .success _blob =>
    .ok { s with
            genPanel := .audio s.nextUrl,
            allocatedUrls := s.allocatedUrls ++ [s.nextUrl],
            nextUrl := s.nextUrl + 1,
            statusText := "Generated audio ready." }

/-- Tail of generateTune: the catch sets the error status and replaces the
generated panel with the failed note; the finally block resets the closure
button, which the panel replacement has already detached. -/
def generateFinish (s : St) (tuneId : String) (o : GenOutcome) : St :=
  let s1 :=
    match generateTry s o with
    | .ok s2 => s2
    | .error m =>
      { setStatus s ("Error generating audio: " ++ m) with genPanel := .failedNote }
  { s1 with inFlight := s1.inFlight.erase tuneId }

/-- The finally block of generateTune as it acts on the closure button object:
re-enabled with the original label, whatever the outcome. -/
def finallyResetBtn (_b : Button) (_o : GenOutcome) : Button :=
  { disabled := false, label := genLabel }

/-- A full uninterleaved run of generateTune for a tune id. -/
def generateTune (s : St) (tuneId : String) (o : GenOutcome) : St :=
  generateFinish (generateBegin s tuneId) tuneId o

/-- Page state after load once the initial list fetch has rendered the grid. -/
def initSt (tunes : List Tune) : St :=
  { statusText := "",
    grid := tunes.map mkCard,
    origPanel := .initial,
    genPanel := .initial,
    allocatedUrls := [],
    nextUrl := 0,
    inFlight := [] }

/-- User and network events after load: clicking a card (selecting a tune),
clicking the generate button currently in the panel, and a response arriving
for an in-flight request of a tune id. -/
inductive Ev where
  | selectTune (t : Tune)
  | clickGen
  | respond (tuneId : String) (o : GenOutcome)
  deriving DecidableEq, Repr

/-- One event step.  The generate click dispatches only when the panel holds
an enabled button; a click on a disabled button dispatches no handler. -/
def step (s : St) : Ev → St
  | .selectTune t => onSelectTune s t
  | .clickGen =>
    match s.genPanel with
    | .genButton tid b => if b.disabled then s else generateBegin s tid
    | _ => s
  | .respond tid o => if tid ∈ s.inFlight then generateFinish s tid o else s

/-- Run a list of events from a state. -/
def run (s : St) : List Ev → St
  | [] => s
  | e :: es => run (step s e) es

end Inline

/-- Example descriptor with an original audio clip, from the spec scenario. -/
def tuneEx1 : Tune :=
  { id := "1", title := "Reel", orig_audio_url := some "/audio/1.wav" }

/-- Example descriptor lacking an original audio clip, from the spec
scenario. -/
def tuneEx2 : Tune :=
  { id := "2", title := "Jig", orig_audio_url := none }

/-- Example list response, from the spec scenario. -/
def tunesEx : List Tune := [tuneEx1, tuneEx2]

/-- Example failing list response: non-success status with a plain-text body
that does not parse as JSON. -/
def rExBad : ListResponse :=
  { ok := false, bodyText := "model overloaded", bodyJson := none }

/-!
Helper lemmas.
-/

theorem updateBtn_get?_ne (g : List CardUI.Card) (i j : Nat) (b : Button)
    (h : j ≠ i) : (CardUI.updateBtn g i b).get? j = g.get? j := by
  induction g generalizing i j with
  | nil => rfl
  | cons c cs ih =>
    cases i with
    | zero =>
      cases j with
      | zero => exact absurd rfl h
      | succ m => rfl
    | succ n =>
      cases j with
      | zero => rfl
      | succ m =>
        simpa [CardUI.updateBtn] using ih n m (fun he => h (by rw [he]))

theorem updateBtn_get?_self (g : List CardUI.Card) (i : Nat) (b : Button) :
    (CardUI.updateBtn g i b).get? i =
      (g.get? i).map (fun c => { c with btn := b }) := by
  induction g generalizing i with
  | nil => rfl
  | cons c cs ih =>
    cases i with
    | zero => rfl
    | succ n => simpa [CardUI.updateBtn] using ih n

theorem corner_generateFinish_grid (s : Corner.St) (i : Nat) (o : GenOutcome) :
    (Corner.generateFinish s i o).grid = CardUI.updateBtn s.grid i CardUI.idleBtn := by
  cases o <;> rfl

theorem corner_generateFinish_inFlight (s : Corner.St) (i : Nat) (o : GenOutcome) :
    (Corner.generateFinish s i o).inFlight = s.inFlight.erase i := by
  cases o <;> rfl

theorem modal_generateFinish_grid (s : Modal.St) (i : Nat) (o : GenOutcome) :
    (Modal.generateFinish s i o).grid = CardUI.updateBtn s.grid i CardUI.idleBtn := by
  cases o <;> rfl

theorem modal_generateFinish_inFlight (s : Modal.St) (i : Nat) (o : GenOutcome) :
    (Modal.generateFinish s i o).inFlight = s.inFlight.erase i := by
  cases o <;> rfl

theorem corner_inv_generateBegin (s : Corner.St) (i : Nat) (c0 : CardUI.Card)
    (hc : s.grid.get? i = some c0) (hdis : c0.btn.disabled = false)
    (h : Corner.Inv s) : Corner.Inv (Corner.generateBegin s i) := by
  obtain ⟨hnd, hmem⟩ := h
  have hni : i ∉ s.inFlight := by
    intro hi
    obtain ⟨c, hc1, hd1⟩ := hmem i hi
    rw [hc] at hc1
    cases hc1
    rw [hdis] at hd1
    exact Bool.false_ne_true hd1
  refine ⟨List.nodup_cons.mpr ⟨hni, hnd⟩, ?_⟩
  intro j hj
  rcases List.mem_cons.mp hj with hji | hjm
  · subst hji
    refine ⟨{ c0 with btn := CardUI.generatingBtn }, ?_, rfl⟩
    show (CardUI.updateBtn s.grid j CardUI.generatingBtn).get? j = _
    rw [updateBtn_get?_self, hc]
    rfl
  · have hne : j ≠ i := fun he => hni (he ▸ hjm)
    obtain ⟨c, hc1, hd1⟩ := hmem j hjm
    refine ⟨c, ?_, hd1⟩
    show (CardUI.updateBtn s.grid i CardUI.generatingBtn).get? j = some c
    rw [updateBtn_get?_ne _ _ _ _ hne]
    exact hc1

theorem corner_inv_generateFinish (s : Corner.St) (i : Nat) (o : GenOutcome)
    (h : Corner.Inv s) : Corner.Inv (Corner.generateFinish s i o) := by
  obtain ⟨hnd, hmem⟩ := h
  constructor
  · rw [corner_generateFinish_inFlight]
    exact hnd.erase i
  · intro j hj
    rw [corner_generateFinish_inFlight] at hj
    have hj2 := (hnd.mem_erase_iff).mp hj
    obtain ⟨c, hc1, hd1⟩ := hmem j hj2.2
    refine ⟨c, ?_, hd1⟩
    rw [corner_generateFinish_grid, updateBtn_get?_ne _ _ _ _ hj2.1]
    exact hc1

theorem corner_inv_step (s : Corner.St) (e : Corner.Ev) (h : Corner.Inv s) :
    Corner.Inv (Corner.step s e) := by
  cases e with
  | clickGen i =>
    simp only [Corner.step]
    cases hg : (s.grid.get? i).map CardUI.Card.btn with
    | none => exact h
    | some b =>
      obtain ⟨c0, hc0, hb⟩ := Option.map_eq_some'.mp hg
      by_cases hd : b.disabled
      · simp only [hd, if_true]
        exact h
      · simp only [hd, if_false]
        exact corner_inv_generateBegin s i c0 hc0 (by rw [hb]; exact Bool.not_eq_true _ ▸ (by simpa using hd)) h
  | respond i o =>
    simp only [Corner.step]
    by_cases hi : i ∈ s.inFlight
    · simp only [hi, if_true]
      exact corner_inv_generateFinish s i o h
    · simp only [hi, if_false]
      exact h
  | closeClick =>
    simp only [Corner.step]
    by_cases hv : s.popupVisible
    · simp only [hv, if_true]
      exact h
    · simp only [hv, if_false]
      exact h

theorem corner_inv_run (s : Corner.St) (evs : List Corner.Ev)
    (h : Corner.Inv s) : Corner.Inv (Corner.run s evs) := by
  induction evs generalizing s with
  | nil => exact h
  | cons e es ih => exact ih _ (corner_inv_step s e h)

theorem corner_inv_init (tunes : List Tune) : Corner.Inv (Corner.initSt tunes) := by
  refine ⟨List.nodup_nil, ?_⟩
  intro i hi
  cases hi

theorem modal_inv_generateBegin (s : Modal.St) (i : Nat) (c0 : CardUI.Card)
    (hc : s.grid.get? i = some c0) (hdis : c0.btn.disabled = false)
    (h : Modal.Inv s) : Modal.Inv (Modal.generateBegin s i) := by
  obtain ⟨hnd, hmem⟩ := h
  have hni : i ∉ s.inFlight := by
    intro hi
    obtain ⟨c, hc1, hd1⟩ := hmem i hi
    rw [hc] at hc1
    cases hc1
    rw [hdis] at hd1
    exact Bool.false_ne_true hd1
  refine ⟨List.nodup_cons.mpr ⟨hni, hnd⟩, ?_⟩
  intro j hj
  rcases List.mem_cons.mp hj with hji | hjm
  · subst hji
    refine ⟨{ c0 with btn := CardUI.generatingBtn }, ?_, rfl⟩
    show (CardUI.updateBtn s.grid j CardUI.generatingBtn).get? j = _
    rw [updateBtn_get?_self, hc]
    rfl
  · have hne : j ≠ i := fun he => hni (he ▸ hjm)
    obtain ⟨c, hc1, hd1⟩ := hmem j hjm
    refine ⟨c, ?_, hd1⟩
    show (CardUI.updateBtn s.grid i CardUI.generatingBtn).get? j = some c
    rw [updateBtn_get?_ne _ _ _ _ hne]
    exact hc1

theorem modal_inv_generateFinish (s : Modal.St) (i : Nat) (o : GenOutcome)
    (h : Modal.Inv s) : Modal.Inv (Modal.generateFinish s i o) := by
  obtain ⟨hnd, hmem⟩ := h
  constructor
  · rw [modal_generateFinish_inFlight]
    exact hnd.erase i
  · intro j hj
    rw [modal_generateFinish_inFlight] at hj
    have hj2 := (hnd.mem_erase_iff).mp hj
    obtain ⟨c, hc1, hd1⟩ := hmem j hj2.2
    refine ⟨c, ?_, hd1⟩
    rw [modal_generateFinish_grid, updateBtn_get?_ne _ _ _ _ hj2.1]
    exact hc1

theorem modal_inv_step (s : Modal.St) (e : Modal.Ev) (h : Modal.Inv s) :
    Modal.Inv (Modal.step s e) := by
  cases e with
  | clickGen i =>
    simp only [Modal.step]
    cases hg : (s.grid.get? i).map CardUI.Card.btn with
    | none => exact h
    | some b =>
      obtain ⟨c0, hc0, hb⟩ := Option.map_eq_some'.mp hg
      by_cases hd : b.disabled
      · simp only [hd, if_true]
        exact h
      · simp only [hd, if_false]
        exact modal_inv_generateBegin s i c0 hc0 (by rw [hb]; simpa using hd) h
  | respond i o =>
    simp only [Modal.step]
    by_cases hi : i ∈ s.inFlight
    · simp only [hi, if_true]
      exact modal_inv_generateFinish s i o h
    · simp only [hi, if_false]
      exact h
  | closeClick =>
    simp only [Modal.step]
    by_cases hv : s.popupVisible
    · simp only [hv, if_true]
      exact h
    · simp only [hv, if_false]
      exact h
  | overlayClick =>
    simp only [Modal.step]
    by_cases hv : s.overlayVisible
    · simp only [hv, if_true]
      exact h
    · simp only [hv, if_false]
      exact h

theorem modal_inv_run (s : Modal.St) (evs : List Modal.Ev)
    (h : Modal.Inv s) : Modal.Inv (Modal.run s evs) := by
  induction evs generalizing s with
  | nil => exact h
  | cons e es ih => exact ih _ (modal_inv_step s e h)

theorem modal_inv_init (tunes : List Tune) : Modal.Inv (Modal.initSt tunes) := by
  refine ⟨List.nodup_nil, ?_⟩
  intro i hi
  cases hi

/-!
Claim theorems.
-/

/-- Claim C1 (amended): in the corner-popup and full-screen-popup variants, at
most one generation request per tune is ever in flight, whatever events occur
after load, because each tune has a single persistent generate button that is
disabled for the whole Generating phase and a disabled control dispatches no
click. -/
theorem c1_amended_single_generating_per_tune_popup_variants
    (tunes : List Tune) (evs : List Corner.Ev) (evsM : List Modal.Ev) (i j : Nat) :
    (Corner.run (Corner.initSt tunes) evs).inFlight.count i ≤ 1 ∧
    (Modal.run (Modal.initSt tunes) evsM).inFlight.count j ≤ 1 := by
  constructor
  · exact List.nodup_iff_count_le_one.mp
      (corner_inv_run _ evs (corner_inv_init tunes)).1 i
  · exact List.nodup_iff_count_le_one.mp
      (modal_inv_run _ evsM (modal_inv_init tunes)).1 j

/-- Claim C1 counterexample: in the inline variant, selecting the card of tune
1 again while its generation is in flight installs a fresh enabled generate
control, and clicking it starts a second concurrent generation for the same
tune, so two requests for tune 1 are in flight at once. -/
theorem c1_counterexample_inline_two_generating :
    ((Inline.run
        (Inline.initSt [{ id := "1", title := "Reel", orig_audio_url := none }])
        [Inline.Ev.selectTune { id := "1", title := "Reel", orig_audio_url := none },
         Inline.Ev.clickGen,
         Inline.Ev.selectTune { id := "1", title := "Reel", orig_audio_url := none },
         Inline.Ev.clickGen]).inFlight.count "1" = 2) ∧
    ¬ ((Inline.run
        (Inline.initSt [{ id := "1", title := "Reel", orig_audio_url := none }])
        [Inline.Ev.selectTune { id := "1", title := "Reel", orig_audio_url := none },
         Inline.Ev.clickGen,
         Inline.Ev.selectTune { id := "1", title := "Reel", orig_audio_url := none },
         Inline.Ev.clickGen]).inFlight.count "1" ≤ 1) := by
  constructor
  · rfl
  · decide

/-- Claim C2: rendering the grid replaces any previously rendered cards (the
resulting grid is exactly the mapped list, independent of the prior state)
with one card per descriptor in server order, each showing the title and id of
its descriptor, in both grid variants. -/
theorem c2_render_grid_cards
    (sC : Corner.St) (sI : Inline.St) (tunes : List Tune) (i : Nat) (t : Tune)
    (h : tunes.get? i = some t) :
    (Corner.renderGrid sC tunes).grid = tunes.map CardUI.mkCard ∧
    (Corner.renderGrid sC tunes).grid.length = tunes.length ∧
    (Corner.renderGrid sC tunes).grid.get? i = some (CardUI.mkCard t) ∧
    (CardUI.mkCard t).title = t.title ∧
    (CardUI.mkCard t).tuneId = t.id ∧
    (Inline.renderGrid sI tunes).grid = tunes.map Inline.mkCard ∧
    (Inline.renderGrid sI tunes).grid.length = tunes.length ∧
    (Inline.renderGrid sI tunes).grid.get? i = some (Inline.mkCard t) ∧
    (Inline.mkCard t).title = t.title ∧
    (Inline.mkCard t).tuneId = t.id := by
  refine ⟨rfl, by simp [Corner.renderGrid], ?_, rfl, rfl,
          rfl, by simp [Inline.renderGrid], ?_, rfl, rfl⟩
  · show (tunes.map CardUI.mkCard).get? i = _
    rw [List.get?_map, h]
    rfl
  · show (tunes.map Inline.mkCard).get? i = _
    rw [List.get?_map, h]
    rfl

/-- Witness for C2 at the spec scenario list. -/
theorem c2_witness :
    (tunesEx.get? 0 = some tuneEx1) ∧
    ((Corner.renderGrid (Corner.initSt []) tunesEx).grid = tunesEx.map CardUI.mkCard ∧
     (Corner.renderGrid (Corner.initSt []) tunesEx).grid.length = tunesEx.length ∧
     (Corner.renderGrid (Corner.initSt []) tunesEx).grid.get? 0 = some (CardUI.mkCard tuneEx1) ∧
     (CardUI.mkCard tuneEx1).title = tuneEx1.title ∧
     (CardUI.mkCard tuneEx1).tuneId = tuneEx1.id ∧
     (Inline.renderGrid (Inline.initSt []) tunesEx).grid = tunesEx.map Inline.mkCard ∧
     (Inline.renderGrid (Inline.initSt []) tunesEx).grid.length = tunesEx.length ∧
     (Inline.renderGrid (Inline.initSt []) tunesEx).grid.get? 0 = some (Inline.mkCard tuneEx1) ∧
     (Inline.mkCard tuneEx1).title = tuneEx1.title ∧
     (Inline.mkCard tuneEx1).tuneId = tuneEx1.id) :=
  ⟨rfl, c2_render_grid_cards (Corner.initSt []) (Inline.initSt []) tunesEx 0 tuneEx1 rfl⟩

/-- Claim C7: a descriptor lacking orig_audio_url renders the not-available
indicator for the original audio, and an audio control is rendered only from a
nonempty orig_audio_url and never has an empty source, both in the card markup
shared by the popup variants and in the original panel of the inline
variant. -/
theorem c7_missing_orig_audio_not_available
    (t : Tune) (s : Inline.St) :
    (t.orig_audio_url = none →
      (CardUI.mkCard t).audio = CardUI.AudioArea.notAvailable) ∧
    (t.orig_audio_url = none →
      (Inline.onSelectTune s t).origPanel = Inline.OrigPanel.notAvailable) ∧
    (∀ src, (CardUI.mkCard t).audio = CardUI.AudioArea.control src →
      ∃ u, t.orig_audio_url = some u ∧ u ≠ "" ∧ src = API_BASE ++ u ∧ src ≠ "") ∧
    (∀ src, (Inline.onSelectTune s t).origPanel = Inline.OrigPanel.control src →
      ∃ u, t.orig_audio_url = some u ∧ u ≠ "" ∧ src = u ∧ src ≠ "") := by
  cases ht : t.orig_audio_url with
  | none =>
    refine ⟨fun _ => ?_, fun _ => ?_, ?_, ?_⟩
    · simp [CardUI.mkCard, CardUI.origAudio, truthy, ht]
    · simp [Inline.onSelectTune, Inline.showGenerateButton, truthy, ht]
    · intro src hsrc
      simp [CardUI.mkCard, CardUI.origAudio, truthy, ht] at hsrc
    · intro src hsrc
      simp [Inline.onSelectTune, Inline.showGenerateButton, truthy, ht] at hsrc
  | some u =>
    by_cases hu : u = ""
    · subst hu
      refine ⟨fun h => ?_, fun h => ?_, ?_, ?_⟩
      · exact Option.noConfusion h
      · exact Option.noConfusion h
      · intro src hsrc
        simp [CardUI.mkCard, CardUI.origAudio, truthy, ht] at hsrc
      · intro src hsrc
        simp [Inline.onSelectTune, Inline.showGenerateButton, truthy, ht] at hsrc
    · have hne : API_BASE ++ u ≠ "" := by
        intro he
        have h1 : (API_BASE ++ u).length = ("" : String).length := by rw [he]
        rw [String.length_append] at h1
        have h2 : API_BASE.length = 33 := rfl
        have h3 : ("" : String).length = 0 := rfl
        omega
      refine ⟨fun h => ?_, fun h => ?_, ?_, ?_⟩
      · exact Option.noConfusion h
      · exact Option.noConfusion h
      · intro src hsrc
        simp [CardUI.mkCard, CardUI.origAudio, truthy, ht, hu] at hsrc
        exact ⟨u, rfl, hu, hsrc.symm, hsrc.symm ▸ hne⟩
      · intro src hsrc
        simp [Inline.onSelectTune, Inline.showGenerateButton, truthy, ht, hu] at hsrc
        exact ⟨u, rfl, hu, hsrc.symm, hsrc.symm ▸ hu⟩

/-- Witness for C7 at the audio-less spec descriptor. -/
theorem c7_witness :
    (tuneEx2.orig_audio_url = none) ∧
    (CardUI.mkCard tuneEx2).audio = CardUI.AudioArea.notAvailable :=
  ⟨rfl, (c7_missing_orig_audio_not_available tuneEx2 (Inline.initSt [])).1 rfl⟩

/-- Claim C3 counterexample: the inline variant does not check the response
status of the list fetch; a non-success response whose body parses as a JSON
tune array is treated as a success (grid rendered from it, status cleared),
not as a server error carrying the body text. -/
theorem c3_counterexample_inline_ignores_status :
    ((Inline.fetchTuneList (Inline.initSt [tuneEx1])
        (ListFetch.response { ok := false, bodyText := "[]", bodyJson := some [] })).statusText
      = "") ∧
    ((Inline.fetchTuneList (Inline.initSt [tuneEx1])
        (ListFetch.response { ok := false, bodyText := "[]", bodyJson := some [] })).statusText
      ≠ "Failed to load tunes: " ++ "[]") ∧
    ((Inline.fetchTuneList (Inline.initSt [tuneEx1])
        (ListFetch.response { ok := false, bodyText := "[]", bodyJson := some [] })).grid
      = []) := by
  refine ⟨rfl, ?_, rfl⟩
  decide

/-- Claim C3 (amended): in the corner-popup and full-screen-popup variants a
list fetch seeing a non-success status fails with the message taken from the
response body, and a transport failure with the transport message, both
surfaced as the status message; each call consumes exactly one fetch outcome,
so nothing is retried.  The inline variant does not check the status: a body
that parses as a tune array is rendered as a success, and otherwise the JSON
parse failure message, not the body text, is surfaced. -/
theorem c3_amended_list_fetch_failures
    (sC : Corner.St) (sM : Modal.St) (sI : Inline.St) (r : ListResponse)
    (m : String) (tunes : List Tune) :
    (r.ok = false →
      (Corner.fetchTuneList sC (ListFetch.response r)).statusText =
        "Failed to load tunes: " ++ r.bodyText) ∧
    ((Corner.fetchTuneList sC (ListFetch.networkError m)).statusText =
      "Failed to load tunes: " ++ m) ∧
    (r.ok = false →
      (Modal.fetchTuneList sM (ListFetch.response r)).statusText =
        "Failed to load tunes: " ++ r.bodyText) ∧
    ((Modal.fetchTuneList sM (ListFetch.networkError m)).statusText =
      "Failed to load tunes: " ++ m) ∧
    (r.bodyJson = some tunes →
      (Inline.fetchTuneList sI (ListFetch.response r)).statusText = "" ∧
      (Inline.fetchTuneList sI (ListFetch.response r)).grid = tunes.map Inline.mkCard) ∧
    (r.bodyJson = none →
      (Inline.fetchTuneList sI (ListFetch.response r)).statusText =
        "Failed to load tunes: " ++ jsonErrMsg r.bodyText) ∧
    ((Inline.fetchTuneList sI (ListFetch.networkError m)).statusText =
      "Failed to load tunes: " ++ m) := by
  refine ⟨fun h => ?_, rfl, fun h => ?_, rfl, fun h => ?_, fun h => ?_, rfl⟩
  · simp [Corner.fetchTuneList, Corner.fetchTuneListTry, Corner.setStatus, h]
  · simp [Modal.fetchTuneList, Modal.fetchTuneListTry, Modal.setStatus, h]
  · constructor <;>
      simp [Inline.fetchTuneList, Inline.fetchTuneListTry, Inline.setStatus,
        Inline.renderGrid, h]
  · simp [Inline.fetchTuneList, Inline.fetchTuneListTry, Inline.setStatus, h]

/-- Witness for C3 at a concrete non-success response. -/
theorem c3_witness :
    (rExBad.ok = false) ∧
    (Corner.fetchTuneList (Corner.initSt []) (ListFetch.response rExBad)).statusText =
      "Failed to load tunes: " ++ rExBad.bodyText :=
  ⟨rfl, (c3_amended_list_fetch_failures (Corner.initSt []) (Modal.initSt [])
      (Inline.initSt []) rExBad "x" []).1 rfl⟩

/-- Claim C4 counterexample: two successful generations for the same tune in
the corner variant leave two allocated object URLs while only one result is
displayed; the URL of the discarded first result is never released. -/
theorem c4_counterexample_old_url_kept :
    ((Corner.generateTunePopup
        (Corner.generateTunePopup (Corner.initSt [tuneEx2]) 0 (GenOutcome.success "a"))
        0 (GenOutcome.success "b")).allocatedUrls = [0, 1]) ∧
    ((Corner.generateTunePopup
        (Corner.generateTunePopup (Corner.initSt [tuneEx2]) 0 (GenOutcome.success "a"))
        0 (GenOutcome.success "b")).popupContent = PopupContent.player 1) ∧
    ¬ ((Corner.generateTunePopup
        (Corner.generateTunePopup (Corner.initSt [tuneEx2]) 0 (GenOutcome.success "a"))
        0 (GenOutcome.success "b")).allocatedUrls.length ≤ 1) := by
  refine ⟨rfl, rfl, ?_⟩
  decide

/-- Claim C4 (amended): a successful re-triggered generation replaces the
displayed result, the popup content becoming the player of the freshly
allocated object URL, but the object URL of the previous result is not
revoked: in both popup variants the allocated URL list keeps every old handle
and grows by exactly the new one. -/
theorem c4_amended_result_replaced_url_accumulates
    (sC : Corner.St) (sM : Modal.St) (i : Nat) (blob : String) :
    ((Corner.generateTunePopup sC i (GenOutcome.success blob)).popupContent =
      PopupContent.player sC.nextUrl) ∧
    ((Corner.generateTunePopup sC i (GenOutcome.success blob)).allocatedUrls =
      sC.allocatedUrls ++ [sC.nextUrl]) ∧
    ((Modal.generateTunePopup sM i (GenOutcome.success blob)).popupContent =
      PopupContent.player sM.nextUrl) ∧
    ((Modal.generateTunePopup sM i (GenOutcome.success blob)).allocatedUrls =
      sM.allocatedUrls ++ [sM.nextUrl]) :=
  ⟨rfl, rfl, rfl, rfl⟩

/-- Claim C5 counterexample: after a successful generation in the full-screen
variant, closing the popup tears the modal content down but does not release
the audio object URL: the allocated handle list still holds it. -/
theorem c5_counterexample_close_keeps_url :
    ((Modal.closePopup
        (Modal.generateTunePopup (Modal.initSt [tuneEx2]) 0
          (GenOutcome.success "a"))).popupContent = PopupContent.empty) ∧
    ((Modal.closePopup
        (Modal.generateTunePopup (Modal.initSt [tuneEx2]) 0
          (GenOutcome.success "a"))).popupVisible = false) ∧
    ((Modal.closePopup
        (Modal.generateTunePopup (Modal.initSt [tuneEx2]) 0
          (GenOutcome.success "a"))).allocatedUrls = [0]) ∧
    ((Modal.closePopup
        (Modal.generateTunePopup (Modal.initSt [tuneEx2]) 0
          (GenOutcome.success "a"))).allocatedUrls ≠ []) := by
  refine ⟨rfl, rfl, rfl, ?_⟩
  decide

/-- Claim C5 (amended): in the full-screen variant, closing via the explicit
close control or by clicking the overlay outside the modal pauses the audio,
hides the modal and the overlay and clears the modal content, but does not
revoke the audio object URL; a new successful result replaces any displayed
content, so the modal is exclusive.  The corner variant closes only via its
explicit control, likewise hiding and clearing without revoking. -/
theorem c5_amended_close_tears_down_without_revoking
    (sM : Modal.St) (sC : Corner.St) (i : Nat) (blob : String) :
    ((Modal.closePopup sM).popupVisible = false) ∧
    ((Modal.closePopup sM).overlayVisible = false) ∧
    ((Modal.closePopup sM).popupContent = PopupContent.empty) ∧
    ((Modal.closePopup sM).audioPlaying = false) ∧
    ((Modal.closePopup sM).allocatedUrls = sM.allocatedUrls) ∧
    (sM.popupVisible = true →
      Modal.step sM Modal.Ev.closeClick = Modal.closePopup sM) ∧
    (sM.overlayVisible = true →
      Modal.step sM Modal.Ev.overlayClick = Modal.closePopup sM) ∧
    ((Modal.generateTunePopup sM i (GenOutcome.success blob)).popupContent =
      PopupContent.player sM.nextUrl) ∧
    ((Corner.closePopup sC).popupVisible = false) ∧
    ((Corner.closePopup sC).popupContent = PopupContent.empty) ∧
    ((Corner.closePopup sC).allocatedUrls = sC.allocatedUrls) ∧
    (sC.popupVisible = true →
      Corner.step sC Corner.Ev.closeClick = Corner.closePopup sC) := by
  refine ⟨rfl, rfl, rfl, rfl, rfl, fun h => ?_, fun h => ?_, rfl, rfl, rfl, rfl,
    fun h => ?_⟩
  · simp [Modal.step, h]
  · simp [Modal.step, h]
  · simp [Corner.step, h]

/-- Witness for C5 at a state with the popup and overlay shown. -/
theorem c5_witness :
    ((Modal.generateTunePopup (Modal.initSt [tuneEx2]) 0
        (GenOutcome.success "a")).overlayVisible = true) ∧
    (Modal.step
        (Modal.generateTunePopup (Modal.initSt [tuneEx2]) 0 (GenOutcome.success "a"))
        Modal.Ev.overlayClick =
      Modal.closePopup
        (Modal.generateTunePopup (Modal.initSt [tuneEx2]) 0 (GenOutcome.success "a"))) :=
  ⟨rfl, ((c5_amended_close_tears_down_without_revoking
      (Modal.generateTunePopup (Modal.initSt [tuneEx2]) 0 (GenOutcome.success "a"))
      (Corner.initSt []) 0 "a").2.2.2.2.2.2.1 rfl)⟩

theorem updateBtn_updateBtn (g : List CardUI.Card) (i : Nat) (b1 b2 : Button) :
    CardUI.updateBtn (CardUI.updateBtn g i b1) i b2 = CardUI.updateBtn g i b2 := by
  induction g generalizing i with
  | nil => rfl
  | cons c cs ih =>
    cases i with
    | zero => rfl
    | succ n => simp [CardUI.updateBtn, ih]

theorem genErr_ne_ready (m : String) :
    "Error generating audio: " ++ m ≠ "Generated audio ready." := by
  intro h
  have h1 : ("Error generating audio: " ++ m).length =
      ("Generated audio ready." : String).length := by rw [h]
  rw [String.length_append] at h1
  have h2 : ("Error generating audio: " : String).length = 24 := rfl
  have h3 : ("Generated audio ready." : String).length = 22 := rfl
  omega

/-- Claim C6: every generation attempt, whatever its outcome, leaves the
triggering control enabled with its original label; a success shows the
playable result and the ready status, a failure shows the failure indication
(error status, and the failed note in the inline variant), and the success and
failure indications never hold together. -/
theorem c6_generation_terminal_states
    (s : Corner.St) (sI : Inline.St) (i : Nat) (c0 : CardUI.Card) (tid : String)
    (o : GenOutcome) (hc : s.grid.get? i = some c0) :
    ((Corner.generateTunePopup s i o).grid.get? i =
      some { c0 with btn := CardUI.idleBtn }) ∧
    (∀ blob, o = GenOutcome.success blob →
      (Corner.generateTunePopup s i o).popupContent = PopupContent.player s.nextUrl ∧
      (Corner.generateTunePopup s i o).popupVisible = true ∧
      (Corner.generateTunePopup s i o).statusText = "Generated audio ready.") ∧
    (o.isFailure = true →
      ∃ m, (Corner.generateTunePopup s i o).statusText =
        "Error generating audio: " ++ m) ∧
    (¬ ((Corner.generateTunePopup s i o).statusText = "Generated audio ready." ∧
        ∃ m, (Corner.generateTunePopup s i o).statusText =
          "Error generating audio: " ++ m)) ∧
    (∀ blob, o = GenOutcome.success blob →
      (Inline.generateTune sI tid o).genPanel = Inline.GenPanel.audio sI.nextUrl ∧
      (Inline.generateTune sI tid o).statusText = "Generated audio ready." ∧
      (Inline.generateTune sI tid o).genPanel ≠ Inline.GenPanel.failedNote) ∧
    (o.isFailure = true →
      (Inline.generateTune sI tid o).genPanel = Inline.GenPanel.failedNote ∧
      ∀ u, (Inline.generateTune sI tid o).genPanel ≠ Inline.GenPanel.audio u) ∧
    (∀ b, Inline.finallyResetBtn b o =
      { disabled := false, label := Inline.genLabel }) := by
  refine ⟨?_, ?_, ?_, ?_, ?_, ?_, fun b => rfl⟩
  · show (Corner.generateFinish (Corner.generateBegin s i) i o).grid.get? i = _
    rw [corner_generateFinish_grid]
    have hb : (Corner.generateBegin s i).grid =
        CardUI.updateBtn s.grid i CardUI.generatingBtn := rfl
    rw [hb, updateBtn_updateBtn, updateBtn_get?_self, hc]
    rfl
  · rintro blob rfl
    exact ⟨rfl, rfl, rfl⟩
  · intro hf
    cases o with
    | success blob => exact Bool.noConfusion hf
    | serverError body => exact ⟨"Server error: " ++ body, rfl⟩
    | networkError msg => exact ⟨msg, rfl⟩
  · rintro ⟨ha, m, hb⟩
    cases o with
    | success blob =>
      have hst : (Corner.generateTunePopup s i (GenOutcome.success blob)).statusText =
          "Generated audio ready." := rfl
      rw [hst] at hb
      exact genErr_ne_ready m hb.symm
    | serverError body =>
      have hst : (Corner.generateTunePopup s i (GenOutcome.serverError body)).statusText =
          "Error generating audio: " ++ ("Server error: " ++ body) := rfl
      rw [hst] at ha
      exact genErr_ne_ready _ ha
    | networkError msg =>
      have hst : (Corner.generateTunePopup s i (GenOutcome.networkError msg)).statusText =
          "Error generating audio: " ++ msg := rfl
      rw [hst] at ha
      exact genErr_ne_ready _ ha
  · rintro blob rfl
    refine ⟨rfl, rfl, ?_⟩
    intro h
    exact Inline.GenPanel.noConfusion h
  · intro hf
    cases o with
    | success blob => exact Bool.noConfusion hf
    | serverError body =>
      refine ⟨rfl, fun u h => ?_⟩
      exact Inline.GenPanel.noConfusion h
    | networkError msg =>
      refine ⟨rfl, fun u h => ?_⟩
      exact Inline.GenPanel.noConfusion h

/-- Witness for C6 at the spec scenario failure: generate for tune 1 returns a
500 with body model overloaded; the control is re-enabled with its original
label. -/
theorem c6_witness :
    ((Corner.initSt tunesEx).grid.get? 0 = some (CardUI.mkCard tuneEx1)) ∧
    ((Corner.generateTunePopup (Corner.initSt tunesEx) 0
        (GenOutcome.serverError "model overloaded")).grid.get? 0 =
      some { CardUI.mkCard tuneEx1 with btn := CardUI.idleBtn }) :=
  ⟨rfl, (c6_generation_terminal_states (Corner.initSt tunesEx) (Inline.initSt []) 0
      (CardUI.mkCard tuneEx1) "1" (GenOutcome.serverError "model overloaded") rfl).1⟩

/-- Claim C8: every list-fetch failure and every generation failure, in every
variant, is caught at the network call and converted into a status message;
the model transition functions return a plain state on every outcome, so no
failure is left to propagate. -/
theorem c8_failures_become_status_messages
    (sC : Corner.St) (sM : Modal.St) (sI : Inline.St) (r : ListResponse)
    (m body tid : String) (i : Nat) :
    ((Corner.fetchTuneList sC (ListFetch.networkError m)).statusText =
      "Failed to load tunes: " ++ m) ∧
    (r.ok = false →
      (Corner.fetchTuneList sC (ListFetch.response r)).statusText =
        "Failed to load tunes: " ++ r.bodyText) ∧
    (r.ok = true → r.bodyJson = none →
      (Corner.fetchTuneList sC (ListFetch.response r)).statusText =
        "Failed to load tunes: " ++ jsonErrMsg r.bodyText) ∧
    ((Modal.fetchTuneList sM (ListFetch.networkError m)).statusText =
      "Failed to load tunes: " ++ m) ∧
    (r.ok = false →
      (Modal.fetchTuneList sM (ListFetch.response r)).statusText =
        "Failed to load tunes: " ++ r.bodyText) ∧
    (r.ok = true → r.bodyJson = none →
      (Modal.fetchTuneList sM (ListFetch.response r)).statusText =
        "Failed to load tunes: " ++ jsonErrMsg r.bodyText) ∧
    ((Inline.fetchTuneList sI (ListFetch.networkError m)).statusText =
      "Failed to load tunes: " ++ m) ∧
    (r.bodyJson = none →
      (Inline.fetchTuneList sI (ListFetch.response r)).statusText =
        "Failed to load tunes: " ++ jsonErrMsg r.bodyText) ∧
    ((Corner.generateTunePopup sC i (GenOutcome.networkError m)).statusText =
      "Error generating audio: " ++ m) ∧
    ((Corner.generateTunePopup sC i (GenOutcome.serverError body)).statusText =
      "Error generating audio: " ++ ("Server error: " ++ body)) ∧
    ((Modal.generateTunePopup sM i (GenOutcome.networkError m)).statusText =
      "Error generating audio: " ++ m) ∧
    ((Modal.generateTunePopup sM i (GenOutcome.serverError body)).statusText =
      "Error generating audio: " ++ ("Server error: " ++ body)) ∧
    ((Inline.generateTune sI tid (GenOutcome.networkError m)).statusText =
      "Error generating audio: " ++ m) ∧
    ((Inline.generateTune sI tid (GenOutcome.serverError body)).statusText =
      "Error generating audio: " ++ ("Server error: " ++ body)) := by
  refine ⟨rfl, fun h => ?_, fun h1 h2 => ?_, rfl, fun h => ?_, fun h1 h2 => ?_,
    rfl, fun h => ?_, rfl, rfl, rfl, rfl, rfl, rfl⟩
  · simp [Corner.fetchTuneList, Corner.fetchTuneListTry, Corner.setStatus, h]
  · simp [Corner.fetchTuneList, Corner.fetchTuneListTry, Corner.setStatus, h1, h2]
  · simp [Modal.fetchTuneList, Modal.fetchTuneListTry, Modal.setStatus, h]
  · simp [Modal.fetchTuneList, Modal.fetchTuneListTry, Modal.setStatus, h1, h2]
  · simp [Inline.fetchTuneList, Inline.fetchTuneListTry, Inline.setStatus, h]

/-- Witness for C8 at a concrete failing list response. -/
theorem c8_witness :
    (rExBad.ok = false) ∧
    (Modal.fetchTuneList (Modal.initSt []) (ListFetch.response rExBad)).statusText =
      "Failed to load tunes: " ++ rExBad.bodyText :=
  ⟨rfl, (c8_failures_become_status_messages (Corner.initSt []) (Modal.initSt [])
      (Inline.initSt []) rExBad "x" "y" "1" 0).2.2.2.2.1 rfl⟩

/-- Claim C9: activating generate on the card at index i disables only that
card during the Generating phase: every other card is exactly as before, and
clicking the still-enabled button of another card j dispatches and starts an
independent generation while i is in flight. -/
theorem c9_only_own_control_disabled
    (s : Corner.St) (i j : Nat) (c0 cj : CardUI.Card)
    (hne : j ≠ i) (hc : s.grid.get? i = some c0) (hcj : s.grid.get? j = some cj)
    (hdj : cj.btn.disabled = false) :
    ((Corner.generateBegin s i).grid.get? j = some cj) ∧
    ((Corner.generateBegin s i).grid.get? i =
      some { c0 with btn := CardUI.generatingBtn }) ∧
    (Corner.step (Corner.generateBegin s i) (Corner.Ev.clickGen j) =
      Corner.generateBegin (Corner.generateBegin s i) j) ∧
    ((Corner.generateBegin (Corner.generateBegin s i) j).inFlight =
      j :: i :: s.inFlight) := by
  have hgj : (Corner.generateBegin s i).grid.get? j = some cj := by
    show (CardUI.updateBtn s.grid i CardUI.generatingBtn).get? j = some cj
    rw [updateBtn_get?_ne _ _ _ _ hne]
    exact hcj
  refine ⟨hgj, ?_, ?_, rfl⟩
  · show (CardUI.updateBtn s.grid i CardUI.generatingBtn).get? i = _
    rw [updateBtn_get?_self, hc]
    rfl
  · have hgj2 : (Corner.generateBegin s i).grid[j]? = some cj := by
      rw [← List.get?_eq_getElem?]
      exact hgj
    simp [Corner.step, hgj2, hdj]

/-- Witness for C9 at the spec scenario list: generating on card 0 leaves card
1 untouched and clickable. -/
theorem c9_witness :
    ((1 : Nat) ≠ 0 ∧
     (Corner.initSt tunesEx).grid.get? 0 = some (CardUI.mkCard tuneEx1) ∧
     (Corner.initSt tunesEx).grid.get? 1 = some (CardUI.mkCard tuneEx2) ∧
     (CardUI.mkCard tuneEx2).btn.disabled = false) ∧
    ((Corner.generateBegin (Corner.initSt tunesEx) 0).grid.get? 1 =
      some (CardUI.mkCard tuneEx2)) :=
  ⟨⟨by decide, rfl, rfl, rfl⟩,
    (c9_only_own_control_disabled (Corner.initSt tunesEx) 0 1
      (CardUI.mkCard tuneEx1) (CardUI.mkCard tuneEx2) (by decide) rfl rfl rfl).1⟩

/-- Claim C10: in both popup variants a failed generation leaves the result
surface untouched: the popup content and visibility, the overlay visibility
and audio state in the full-screen variant, and the object URL resources are
exactly as before the attempt; the grid changes at most at the triggering
button, which ends re-enabled with its original label. -/
theorem c10_failed_generation_surface_untouched
    (sC : Corner.St) (sM : Modal.St) (i : Nat) (o : GenOutcome)
    (hf : o.isFailure = true) :
    ((Corner.generateTunePopup sC i o).popupContent = sC.popupContent) ∧
    ((Corner.generateTunePopup sC i o).popupVisible = sC.popupVisible) ∧
    ((Corner.generateTunePopup sC i o).allocatedUrls = sC.allocatedUrls) ∧
    ((Corner.generateTunePopup sC i o).nextUrl = sC.nextUrl) ∧
    ((Corner.generateTunePopup sC i o).grid =
      CardUI.updateBtn sC.grid i CardUI.idleBtn) ∧
    ((Modal.generateTunePopup sM i o).popupContent = sM.popupContent) ∧
    ((Modal.generateTunePopup sM i o).popupVisible = sM.popupVisible) ∧
    ((Modal.generateTunePopup sM i o).overlayVisible = sM.overlayVisible) ∧
    ((Modal.generateTunePopup sM i o).audioPlaying = sM.audioPlaying) ∧
    ((Modal.generateTunePopup sM i o).allocatedUrls = sM.allocatedUrls) ∧
    ((Modal.generateTunePopup sM i o).nextUrl = sM.nextUrl) ∧
    ((Modal.generateTunePopup sM i o).grid =
      CardUI.updateBtn sM.grid i CardUI.idleBtn) := by
  have hgC : (Corner.generateTunePopup sC i o).grid =
      CardUI.updateBtn sC.grid i CardUI.idleBtn := by
    show (Corner.generateFinish (Corner.generateBegin sC i) i o).grid = _
    rw [corner_generateFinish_grid]
    have hb : (Corner.generateBegin sC i).grid =
        CardUI.updateBtn sC.grid i CardUI.generatingBtn := rfl
    rw [hb, updateBtn_updateBtn]
  have hgM : (Modal.generateTunePopup sM i o).grid =
      CardUI.updateBtn sM.grid i CardUI.idleBtn := by
    show (Modal.generateFinish (Modal.generateBegin sM i) i o).grid = _
    rw [modal_generateFinish_grid]
    have hb : (Modal.generateBegin sM i).grid =
        CardUI.updateBtn sM.grid i CardUI.generatingBtn := rfl
    rw [hb, updateBtn_updateBtn]
  cases o with
  | success blob => exact Bool.noConfusion hf
  | serverError body =>
    exact ⟨rfl, rfl, rfl, rfl, hgC, rfl, rfl, rfl, rfl, rfl, rfl, hgM⟩
  | networkError msg =>
    exact ⟨rfl, rfl, rfl, rfl, hgC, rfl, rfl, rfl, rfl, rfl, rfl, hgM⟩

/-- Witness for C10 at a concrete failing generation. -/
theorem c10_witness :
    ((GenOutcome.serverError "model overloaded").isFailure = true) ∧
    ((Corner.generateTunePopup (Corner.initSt tunesEx) 0
        (GenOutcome.serverError "model overloaded")).popupContent =
      (Corner.initSt tunesEx).popupContent) :=
  ⟨rfl, (c10_failed_generation_surface_untouched (Corner.initSt tunesEx)
      (Modal.initSt tunesEx) 0 (GenOutcome.serverError "model overloaded") rfl).1⟩

end MusicGenRNN
